import Mathlib

/-!
Verification development for the roads client (`src/roads.go`).

The file shallowly embeds the two operations of the client, `SnapToRoad`
and `SpeedLimits`: input validation, HTTP query construction, delegation
to the auth-query and HTTP-transport collaborators, JSON decoding of the
response body, and the goroutine/select cancellation race.  External
collaborators (the `LatLng` geometry type, `generateAuthQuery`, `httpDo`,
and the standard JSON decoder) are not part of `src/roads.go`; they are
modelled from the spec, as noted on each definition.
-/

namespace Maps

/-- Modelled from the spec: `LatLng` is a latitude/longitude pair supplied by
an external geometry collaborator; it serializes to the canonical
comma-separated form used by `e.String()` at roads.go:69 and roads.go:160.
Coordinates are modelled as rationals. -/
structure LatLng where
  Lat : Rat
  Lng : Rat
  deriving DecidableEq, Repr

/-- Modelled from the spec: the canonical string form of a coordinate,
latitude then longitude joined by a comma. -/
def LatLng.string (l : LatLng) : String :=
  toString l.Lat ++ "," ++ toString l.Lng

/-- Embeds `SnapToRoadRequest` (roads.go:94). -/
structure SnapToRoadRequest where
  Path : List LatLng
  Interpolate : Bool
  deriving DecidableEq, Repr

/-- Embeds `SnappedPoint` (roads.go:108).  The Go field `OriginalIndex *int`
is a nullable pointer, embedded as `Option Int`. -/
structure SnappedPoint where
  Location : LatLng
  OriginalIndex : Option Int
  PlaceID : String
  deriving DecidableEq, Repr

/-- Embeds `SnapToRoadResponse` (roads.go:103). -/
structure SnapToRoadResponse where
  SnappedPoints : List SnappedPoint
  deriving DecidableEq, Repr

/-- Embeds `speedLimitUnit` (roads.go:189), a defined type over `string`. -/
abbrev speedLimitUnit := String

/-- Embeds the constant `SpeedLimitMPH` (roads.go:193). -/
def SpeedLimitMPH : speedLimitUnit := "MPH"

/-- Embeds the constant `SpeedLimitKPH` (roads.go:195). -/
def SpeedLimitKPH : speedLimitUnit := "KPH"

/-- Embeds `SpeedLimitsRequest` (roads.go:199). -/
structure SpeedLimitsRequest where
  Path : List LatLng
  PlaceID : List String
  Units : speedLimitUnit
  deriving DecidableEq, Repr

/-- Embeds `SpeedLimit` (roads.go:217).  The Go field `SpeedLimit float64`
is modelled as a rational; the claims only exercise integral values. -/
structure SpeedLimit where
  PlaceID : String
  SpeedLimit : Rat
  Units : speedLimitUnit
  deriving DecidableEq, Repr

/-- Embeds `SpeedLimitsResponse` (roads.go:211). -/
structure SpeedLimitsResponse where
  SpeedLimits : List SpeedLimit
  SnappedPoints : List SnappedPoint
  deriving DecidableEq, Repr

/-- Modelled from the spec: `url.Values` as an association list from query
keys to their list of values.  Keys are unordered in Go (a map); only
per-key value lists and key presence are specified, which the association
list preserves. -/
abbrev Values := List (String × List String)

/-- Modelled from the spec: `url.Values.Set`, which replaces the value list
of the key with the single given value. -/
def Values.set : Values → String → String → Values
  | [], k, v => [(k, [v])]
  | (k0, vs) :: q, k, v =>
    if k0 = k then (k0, [v]) :: q else (k0, vs) :: Values.set q k v

/-- Modelled from the spec: `url.Values.Add`, which appends the given value
to the value list of the key. -/
def Values.add : Values → String → String → Values
  | [], k, v => [(k, [v])]
  | (k0, vs) :: q, k, v =>
    if k0 = k then (k0, vs ++ [v]) :: q else (k0, vs) :: Values.add q k v

/-- Lookup of the value list recorded for a key. -/
def Values.get : Values → String → Option (List String)
  | [], _ => none
  | (k0, vs) :: q, k => if k0 = k then some vs else Values.get q k

/-- Embeds the query construction of `doGetSnapToRoad` (roads.go:66-75):
the path coordinates are serialized and joined with a pipe into the `path`
parameter, and `interpolate=true` is set exactly when `Interpolate` holds. -/
def snapToRoadQuery (r : SnapToRoadRequest) : Values :=
  let p := r.Path.map LatLng.string
  let q := Values.set [] "path" (String.intercalate "|" p)
  if r.Interpolate then Values.set q "interpolate" "true" else q

/-- Embeds the query construction of `doGetSpeedLimits` (roads.go:157-171):
the `path` parameter is set only for a non-empty path, each `PlaceID` entry
is added as a repeated `placeId` parameter in order, and `units` is set
exactly when `Units` is non-empty. -/
def speedLimitsQuery (r : SpeedLimitsRequest) : Values :=
  let p := r.Path.map LatLng.string
  let q : Values :=
    if p.length > 0 then Values.set [] "path" (String.intercalate "|" p) else []
  let q := r.PlaceID.foldl (fun q id => Values.add q "placeId" id) q
  if r.Units ≠ "" then Values.set q "units" r.Units else q

/-- Modelled from the spec: a JSON value, as produced by parsing a response
body.  Numbers are modelled as rationals. -/
inductive Json where
  | null
  | bool (b : Bool)
  | num (q : Rat)
  | str (s : String)
  | arr (elems : List Json)
  | obj (fields : List (String × Json))
  deriving Repr

/-- First binding of a key in a JSON object field list. -/
def jsonField (fields : List (String × Json)) (k : String) : Option Json :=
  (fields.find? (fun p => p.1 = k)).map (fun p => p.2)

/-- Modelled from the spec: decoding a JSON value into a Go `float64` field.
A non-number is a type error. -/
def decodeNum : Json → Except String Rat
  | .num q => .ok q
  | _ => .error "json: cannot unmarshal value into field of type float64"

/-- Modelled from the spec: decoding into a Go `string` field; `null` leaves
the zero value. -/
def decodeStr : Json → Except String String
  | .str s => .ok s
  | .null => .ok ""
  | _ => .error "json: cannot unmarshal value into field of type string"

/-- Modelled from the spec: decoding into the Go `*int` field
`OriginalIndex`; `null` and an absent key leave the pointer nil, a number
must be integral. -/
def decodeOptInt : Json → Except String (Option Int)
  | .null => .ok none
  | .num q => if q.den = 1 then .ok (some q.num) else
      .error "json: cannot unmarshal number into field of type int"
  | _ => .error "json: cannot unmarshal value into field of type int"

/-- Modelled from the spec: decoding into the `LatLng` collaborator type,
with JSON keys `lat` and `lng`; absent keys leave the zero value. -/
def decodeLatLng : Json → Except String LatLng
  | .null => .ok ⟨0, 0⟩
  | .obj fs => do
    let lat ← match jsonField fs "lat" with
      | none => Except.ok 0
      | some v => decodeNum v
    let lng ← match jsonField fs "lng" with
      | none => Except.ok 0
      | some v => decodeNum v
    .ok ⟨lat, lng⟩
  | _ => .error "json: cannot unmarshal value into field of type LatLng"

/-- Modelled from the spec: decoding a `SnappedPoint` object with tags
`location`, `originalIndex`, `placeId` (roads.go:108-117); absent keys
leave zero values, and an absent `originalIndex` leaves the pointer nil. -/
def decodeSnappedPoint : Json → Except String SnappedPoint
  | .null => .ok ⟨⟨0, 0⟩, none, ""⟩
  | .obj fs => do
    let loc ← match jsonField fs "location" with
      | none => Except.ok (⟨0, 0⟩ : LatLng)
      | some v => decodeLatLng v
    let oi ← match jsonField fs "originalIndex" with
      | none => Except.ok (none : Option Int)
      | some v => decodeOptInt v
    let pid ← match jsonField fs "placeId" with
      | none => Except.ok ""
      | some v => decodeStr v
    .ok ⟨loc, oi, pid⟩
  | _ => .error "json: cannot unmarshal value into field of type SnappedPoint"

/-- Modelled from the spec: decoding a JSON array into a Go slice; `null`
leaves the nil slice. -/
def decodeList (f : Json → Except String α) : Json → Except String (List α)
  | .null => .ok []
  | .arr xs => xs.mapM f
  | _ => .error "json: cannot unmarshal value into field of type slice"

/-- Modelled from the spec: decoding a `SpeedLimit` object with tags
`placeId`, `speedLimit`, `units` (roads.go:217-224). -/
def decodeSpeedLimit : Json → Except String SpeedLimit
  | .null => .ok ⟨"", 0, ""⟩
  | .obj fs => do
    let pid ← match jsonField fs "placeId" with
      | none => Except.ok ""
      | some v => decodeStr v
    let sl ← match jsonField fs "speedLimit" with
      | none => Except.ok (0 : Rat)
      | some v => decodeNum v
    let u ← match jsonField fs "units" with
      | none => Except.ok ""
      | some v => decodeStr v
    .ok ⟨pid, sl, u⟩
  | _ => .error "json: cannot unmarshal value into field of type SpeedLimit"

/-- Modelled from the spec: decoding a `SnapToRoadResponse` object with the
tag `snappedPoints` (roads.go:103-105). -/
def decodeSnapToRoadResponse : Json → Except String SnapToRoadResponse
  | .null => .ok ⟨[]⟩
  | .obj fs => do
    let sp ← match jsonField fs "snappedPoints" with
      | none => Except.ok ([] : List SnappedPoint)
      | some v => decodeList decodeSnappedPoint v
    .ok ⟨sp⟩
  | _ => .error "json: cannot unmarshal value into SnapToRoadResponse"

/-- Modelled from the spec: decoding a `SpeedLimitsResponse` object with the
tags `speedLimits` and `snappedPoints` (roads.go:211-214). -/
def decodeSpeedLimitsResponse : Json → Except String SpeedLimitsResponse
  | .null => .ok ⟨[], []⟩
  | .obj fs => do
    let sl ← match jsonField fs "speedLimits" with
      | none => Except.ok ([] : List SpeedLimit)
      | some v => decodeList decodeSpeedLimit v
    let sp ← match jsonField fs "snappedPoints" with
      | none => Except.ok ([] : List SnappedPoint)
      | some v => decodeList decodeSnappedPoint v
    .ok ⟨sl, sp⟩
  | _ => .error "json: cannot unmarshal value into SpeedLimitsResponse"

/-- A response body handed back by the HTTP-transport collaborator: either a
parsed JSON value, or `none` for a body that is not well-formed JSON. -/
abbrev Body := Option Json

/-- Embeds the decode step of `doGetSnapToRoad` (roads.go:88-90).  The Go
code allocates a fresh zero `SnapToRoadResponse`, decodes into it, and
returns the struct together with the decoder error; on failure the struct
holds whatever the decoder produced before the error (the zero value for a
syntax error or a top-level type error, which is every failure this model
produces). -/
def decodeSnapBody (b : Body) : SnapToRoadResponse × Option String :=
  match b with
  | none => (⟨[]⟩, some "invalid character looking for beginning of value")
  | some j =>
    match decodeSnapToRoadResponse j with
    | .ok r => (r, none)
    | .error e => (⟨[]⟩, some e)

/-- Embeds the decode step of `doGetSpeedLimits` (roads.go:184-186), in the
same way as `decodeSnapBody`. -/
def decodeSpeedBody (b : Body) : SpeedLimitsResponse × Option String :=
  match b with
  | none => (⟨[], []⟩, some "invalid character looking for beginning of value")
  | some j =>
    match decodeSpeedLimitsResponse j with
    | .ok r => (r, none)
    | .error e => (⟨[], []⟩, some e)

/-- Observable side effects of one call: spawning the worker goroutine
(roads.go:43, roads.go:133), calling the auth-query collaborator
(roads.go:76, roads.go:172), and calling the HTTP transport (roads.go:82,
roads.go:178). -/
inductive Ev where
  | spawnWorker
  | authCall
  | httpCall
  deriving DecidableEq, Repr

/-- Modelled from the spec: the per-call behaviour of the external
collaborators consumed by `doGetSnapToRoad` and `doGetSpeedLimits` — the
outcome of `http.NewRequest`, of `c.generateAuthQuery`, and of `c.httpDo`
(whose successful response carries the body later decoded). -/
structure CallEnv where
  newReqErr : Option String
  auth : Except String String
  http : Except String Body

/-- Which branch of the `select` (roads.go:48-53, roads.go:138-143) fires
first: delivery of the worker result, or the context cancellation signal. -/
inductive RaceWinner where
  | worker
  | ctx
  deriving DecidableEq, Repr

/-- Embeds `doGetSnapToRoad` (roads.go:56-91): build the request, build the
query, sign it via the auth collaborator, execute via the transport, decode
the body.  The result pairs the returned `(*SnapToRoadResponse, error)` —
pointers as options — with the trace of collaborator calls. -/
def doGetSnapToRoad (c : CallEnv) (r : SnapToRoadRequest) :
    (Option SnapToRoadResponse × Option String) × List Ev :=
  match c.newReqErr with
  | some e => ((none, some e), [])
  | none =>
    let _q := snapToRoadQuery r
    match c.auth with
    | .error e => ((none, some e), [.authCall])
    | .ok _query =>
      match c.http with
      | .error e => ((none, some e), [.authCall, .httpCall])
      | .ok body =>
        let d := decodeSnapBody body
        ((some d.1, d.2), [.authCall, .httpCall])

/-- Embeds `doGetSpeedLimits` (roads.go:146-187), analogously. -/
def doGetSpeedLimits (c : CallEnv) (r : SpeedLimitsRequest) :
    (Option SpeedLimitsResponse × Option String) × List Ev :=
  match c.newReqErr with
  | some e => ((none, some e), [])
  | none =>
    let _q := speedLimitsQuery r
    match c.auth with
    | .error e => ((none, some e), [.authCall])
    | .ok _query =>
      match c.http with
      | .error e => ((none, some e), [.authCall, .httpCall])
      | .ok body =>
        let d := decodeSpeedBody body
        ((some d.1, d.2), [.authCall, .httpCall])

/-- Embeds `SnapToRoad` (roads.go:35-54): an empty path fails validation
before any goroutine is spawned; otherwise the worker runs
`doGetSnapToRoad` and the `select` returns either the worker result or
`(nil, ctx.Err())`.  The worker's collaborator calls happen in either case
(the goroutine is not stopped on cancellation); only the returned pair
depends on the race. -/
def SnapToRoad (c : CallEnv) (race : RaceWinner) (ctxErr : String)
    (r : SnapToRoadRequest) :
    (Option SnapToRoadResponse × Option String) × List Ev :=
  if r.Path.length = 0 then
    ((none, some "snapToRoad: You must specify a Path"), [])
  else
    let w := doGetSnapToRoad c r
    match race with
    | .worker => (w.1, .spawnWorker :: w.2)
    | .ctx => ((none, some ctxErr), .spawnWorker :: w.2)

/-- Embeds `SpeedLimits` (roads.go:125-144), analogously: validation
requires a path or a place ID before the goroutine is spawned. -/
def SpeedLimits (c : CallEnv) (race : RaceWinner) (ctxErr : String)
    (r : SpeedLimitsRequest) :
    (Option SpeedLimitsResponse × Option String) × List Ev :=
  if r.Path.length = 0 ∧ r.PlaceID.length = 0 then
    ((none, some "speedLimits: You must specify a Path or PlaceID"), [])
  else
    let w := doGetSpeedLimits c r
    match race with
    | .worker => (w.1, .spawnWorker :: w.2)
    | .ctx => ((none, some ctxErr), .spawnWorker :: w.2)

/-! Helper lemmas about the `url.Values` model. -/

theorem Values.get_set_self (q : Values) (k v : String) :
    (Values.set q k v).get k = some [v] := by
  induction q with
  | nil => simp [Values.set, Values.get]
  | cons p q ih =>
    obtain ⟨k0, vs⟩ := p
    by_cases h : k0 = k <;> simp [Values.set, Values.get, h, ih]

theorem Values.get_set_ne (q : Values) {k k1 : String} (v : String) (h : k1 ≠ k) :
    (Values.set q k v).get k1 = q.get k1 := by
  induction q with
  | nil => simp [Values.set, Values.get, Ne.symm h]
  | cons p q ih =>
    obtain ⟨k0, vs⟩ := p
    by_cases h0 : k0 = k
    · subst h0
      simp [Values.set, Values.get, Ne.symm h]
    · simp [Values.set, Values.get, h0, ih]

theorem Values.get_add_self (q : Values) (k v : String) :
    (Values.add q k v).get k = some (((q.get k).getD []) ++ [v]) := by
  induction q with
  | nil => simp [Values.add, Values.get]
  | cons p q ih =>
    obtain ⟨k0, vs⟩ := p
    by_cases h : k0 = k <;> simp [Values.add, Values.get, h, ih]

theorem Values.get_add_ne (q : Values) {k k1 : String} (v : String) (h : k1 ≠ k) :
    (Values.add q k v).get k1 = q.get k1 := by
  induction q with
  | nil => simp [Values.add, Values.get, Ne.symm h]
  | cons p q ih =>
    obtain ⟨k0, vs⟩ := p
    by_cases h0 : k0 = k
    · subst h0
      simp [Values.add, Values.get, Ne.symm h]
    · simp [Values.add, Values.get, h0, ih]

theorem Values.get_foldl_add_ne (ids : List String) (q : Values)
    {k k1 : String} (h : k1 ≠ k) :
    (ids.foldl (fun q id => Values.add q k id) q).get k1 = q.get k1 := by
  induction ids generalizing q with
  | nil => rfl
  | cons a as ih => simp [List.foldl, ih, Values.get_add_ne _ _ h]

theorem Values.get_foldl_add_some (ids : List String) (q : Values)
    (k : String) (vs : List String) (h : q.get k = some vs) :
    (ids.foldl (fun q id => Values.add q k id) q).get k = some (vs ++ ids) := by
  induction ids generalizing q vs with
  | nil => simpa using h
  | cons a as ih =>
    simp only [List.foldl]
    have h2 : (Values.add q k a).get k = some (vs ++ [a]) := by
      rw [Values.get_add_self, h]
      rfl
    rw [ih _ _ h2]
    simp

theorem Values.get_foldl_add_none (ids : List String) (q : Values)
    (k : String) (h : q.get k = none) :
    (ids.foldl (fun q id => Values.add q k id) q).get k =
      if ids = [] then none else some ids := by
  cases ids with
  | nil => simpa using h
  | cons a as =>
    have h2 : (Values.add q k a).get k = some [a] := by
      rw [Values.get_add_self, h]
      rfl
    simp only [List.foldl, if_neg (List.cons_ne_nil a as)]
    rw [Values.get_foldl_add_some as _ _ _ h2]
    simp

/-! Facts about the constructed queries. -/

theorem snapToRoadQuery_get_path (r : SnapToRoadRequest) :
    (snapToRoadQuery r).get "path"
      = some [String.intercalate "|" (r.Path.map LatLng.string)] := by
  cases hI : r.Interpolate <;>
    simp [snapToRoadQuery, hI, Values.get_set_self,
      Values.get_set_ne _ _ (by decide : ("path" : String) ≠ "interpolate")]

theorem speedLimitsQuery_get_path (r : SpeedLimitsRequest) :
    (speedLimitsQuery r).get "path"
      = if r.Path = [] then none
        else some [String.intercalate "|" (r.Path.map LatLng.string)] := by
  have hpl : ("path" : String) ≠ "placeId" := by decide
  have hun : ("path" : String) ≠ "units" := by decide
  by_cases hu : r.Units = "" <;> cases hp : r.Path <;>
    simp [speedLimitsQuery, hu, hp, Values.get_set_self,
      Values.get_set_ne _ _ hun, Values.get_foldl_add_ne _ _ hpl, Values.get]

theorem speedLimitsQuery_get_placeId (r : SpeedLimitsRequest) :
    (speedLimitsQuery r).get "placeId"
      = if r.PlaceID = [] then none else some r.PlaceID := by
  have hun : ("placeId" : String) ≠ "units" := by decide
  have h0 : ∀ q0 : Values, q0 = [] ∨ (∃ v, q0 = [("path", v)]) →
      (r.PlaceID.foldl (fun q id => Values.add q "placeId" id) q0).get "placeId"
        = if r.PlaceID = [] then none else some r.PlaceID := by
    intro q0 hq0
    have : q0.get "placeId" = none := by
      rcases hq0 with h | ⟨v, h⟩ <;> subst h <;> simp [Values.get]
    exact Values.get_foldl_add_none _ _ _ this
  by_cases hu : r.Units = "" <;> cases hp : r.Path.map LatLng.string <;>
    simp only [speedLimitsQuery, hp, hu, ne_eq, not_true_eq_false, if_false,
      ite_true, ite_false, not_false_eq_true, if_true, List.length_nil,
      List.length_cons, gt_iff_lt, Nat.lt_irrefl, Nat.succ_pos,
      Values.get_set_ne _ _ hun] <;>
    first
      | exact h0 _ (Or.inl rfl)
      | exact h0 _ (Or.inr ⟨_, rfl⟩)

theorem speedLimitsQuery_get_units (r : SpeedLimitsRequest) :
    (speedLimitsQuery r).get "units"
      = if r.Units = "" then none else some [r.Units] := by
  have hpl : ("units" : String) ≠ "placeId" := by decide
  have h0 : ∀ q0 : Values, q0 = [] ∨ (∃ v, q0 = [("path", v)]) →
      (r.PlaceID.foldl (fun q id => Values.add q "placeId" id) q0).get "units"
        = none := by
    intro q0 hq0
    rw [Values.get_foldl_add_ne _ _ hpl]
    rcases hq0 with h | ⟨v, h⟩ <;> subst h <;> simp [Values.get]
  by_cases hu : r.Units = "" <;> cases hp : r.Path.map LatLng.string <;>
    simp only [speedLimitsQuery, hp, hu, ne_eq, not_true_eq_false, if_false,
      ite_true, ite_false, not_false_eq_true, if_true, List.length_nil,
      List.length_cons, gt_iff_lt, Nat.lt_irrefl, Nat.succ_pos,
      Values.get_set_self] <;>
    first
      | exact h0 _ (Or.inl rfl)
      | exact h0 _ (Or.inr ⟨_, rfl⟩)

/-! Concrete collaborator behaviours and response bodies used by the
end-to-end claims. -/

/-- Collaborators all succeed; the transport returns a body that is not
well-formed JSON, so decoding fails. -/
def envBadBody : CallEnv := ⟨none, .ok "signed", .ok none⟩

/-- Collaborators all succeed; the transport returns the snapped-point body
with `originalIndex` present and zero. -/
def envIndexZero : CallEnv :=
  ⟨none, .ok "signed", .ok (some (.obj [("snappedPoints", .arr [
    .obj [("location", .obj [("lat", .num 1), ("lng", .num 2)]),
          ("originalIndex", .num 0), ("placeId", .str "p1")]])]))⟩

/-- Collaborators all succeed; the transport returns the snapped-point body
with the `originalIndex` key absent. -/
def envIndexAbsent : CallEnv :=
  ⟨none, .ok "signed", .ok (some (.obj [("snappedPoints", .arr [
    .obj [("location", .obj [("lat", .num 1), ("lng", .num 2)]),
          ("placeId", .str "p1")]])]))⟩

/-- Collaborators all succeed; the transport returns the speed-limit body
whose single entry carries server-side units MPH. -/
def envSpeedMPH : CallEnv :=
  ⟨none, .ok "signed", .ok (some (.obj [("speedLimits", .arr [
    .obj [("placeId", .str "p1"), ("speedLimit", .num 65),
          ("units", .str "MPH")]]), ("snappedPoints", .arr [])]))⟩

/-! Claim theorems. -/

/-- C2: for every `SnapToRoadRequest` with an empty `Path`, `SnapToRoad`
returns the validation error and an empty trace — no worker is spawned, no
auth-query generation and no HTTP call happen — whatever the collaborators,
the race and the context would have done. -/
theorem c2_snapToRoad_empty_path (c : CallEnv) (race : RaceWinner)
    (ce : String) (r : SnapToRoadRequest) (h : r.Path = []) :
    SnapToRoad c race ce r
      = ((none, some "snapToRoad: You must specify a Path"), []) := by
  simp [SnapToRoad, h]

/-- Witness for C2 at a concrete request and environment. -/
theorem c2_snapToRoad_empty_path_witness :
    SnapToRoad ⟨none, .ok "signed", .error "boom"⟩ .worker "canceled" ⟨[], true⟩
      = ((none, some "snapToRoad: You must specify a Path"), []) :=
  c2_snapToRoad_empty_path _ _ _ _ rfl

/-- C3: `SpeedLimits` with both `Path` and `PlaceID` empty returns the
validation error with an empty trace (no HTTP call); with at least one of
them non-empty it proceeds past validation and spawns the worker. -/
theorem c3_speedLimits_validation (c : CallEnv) (race : RaceWinner)
    (ce : String) (r : SpeedLimitsRequest) :
    (r.Path = [] ∧ r.PlaceID = [] →
      SpeedLimits c race ce r
        = ((none, some "speedLimits: You must specify a Path or PlaceID"), [])) ∧
    (r.Path ≠ [] ∨ r.PlaceID ≠ [] →
      (SpeedLimits c race ce r).2.head? = some .spawnWorker) := by
  constructor
  · rintro ⟨h1, h2⟩
    simp [SpeedLimits, h1, h2]
  · intro h
    have hv : ¬(r.Path = [] ∧ r.PlaceID = []) := by
      rcases h with h | h <;> intro hc
      · exact h hc.1
      · exact h hc.2
    cases race <;> simp [SpeedLimits, List.length_eq_zero, hv]

/-- Witness for C3: both conjuncts applied at concrete requests. -/
theorem c3_speedLimits_validation_witness :
    SpeedLimits envBadBody .worker "canceled" ⟨[], [], ""⟩
      = ((none, some "speedLimits: You must specify a Path or PlaceID"), []) ∧
    (SpeedLimits envBadBody .worker "canceled" ⟨[], ["p1"], ""⟩).2.head?
      = some .spawnWorker :=
  ⟨(c3_speedLimits_validation _ _ _ _).1 ⟨rfl, rfl⟩,
   (c3_speedLimits_validation _ _ _ _).2 (Or.inr (by decide))⟩

/-- C4: for a non-empty path the constructed query's `path` parameter is
the coordinates' canonical string forms joined by a pipe, in input order —
in `snapToRoadQuery` and in `speedLimitsQuery` — while `speedLimitsQuery`
omits the `path` parameter entirely when the path is empty. -/
theorem c4_path_parameter (r : SnapToRoadRequest) (r2 : SpeedLimitsRequest)
    (h : r.Path ≠ []) :
    (snapToRoadQuery r).get "path"
      = some [String.intercalate "|" (r.Path.map LatLng.string)] ∧
    (speedLimitsQuery r2).get "path"
      = if r2.Path = [] then none
        else some [String.intercalate "|" (r2.Path.map LatLng.string)] :=
  ⟨snapToRoadQuery_get_path r, speedLimitsQuery_get_path r2⟩

/-- Witness for C4 at a two-point path and an empty path. -/
theorem c4_path_parameter_witness :
    (snapToRoadQuery ⟨[⟨1, 2⟩, ⟨3, 4⟩], false⟩).get "path"
      = some ["1,2|3,4"] ∧
    (speedLimitsQuery ⟨[], ["p1"], ""⟩).get "path" = none := by
  have h := c4_path_parameter ⟨[⟨1, 2⟩, ⟨3, 4⟩], false⟩ ⟨[], ["p1"], ""⟩
    (by decide)
  exact ⟨by rw [h.1]; decide, by rw [h.2]; decide⟩

/-- C5: every entry of `PlaceID` contributes one repeated `placeId`
parameter, in input order, duplicates kept; the parameter is absent exactly
when `PlaceID` is empty. -/
theorem c5_placeId_repeated (r : SpeedLimitsRequest) :
    (speedLimitsQuery r).get "placeId"
      = if r.PlaceID = [] then none else some r.PlaceID :=
  speedLimitsQuery_get_placeId r

/-- A request that passes validation spawns the worker goroutine, whichever
branch of the select later fires. -/
theorem speedLimits_spawns_worker (c : CallEnv) (race : RaceWinner)
    (ce : String) (r : SpeedLimitsRequest)
    (hv : r.Path ≠ [] ∨ r.PlaceID ≠ []) :
    (SpeedLimits c race ce r).2.head? = some .spawnWorker := by
  have hv2 : ¬(r.Path = [] ∧ r.PlaceID = []) := by
    rcases hv with h | h <;> intro hc
    · exact h hc.1
    · exact h hc.2
  cases race <;> simp [SpeedLimits, List.length_eq_zero, hv2]

/-- C6: the constructed speed-limits query carries a `units` parameter
exactly when `Units` is set, with its string value; and end-to-end, a
request with `Units` unset sends no `units` parameter while the decoded
response still carries the server-provided MPH units value. -/
theorem c6_units_parameter (r : SpeedLimitsRequest) :
    ((speedLimitsQuery r).get "units"
        = if r.Units = "" then none else some [r.Units]) ∧
    (speedLimitsQuery ⟨[], ["p1"], ""⟩).get "units" = none ∧
    (SpeedLimits envSpeedMPH .worker "canceled" ⟨[], ["p1"], ""⟩).1
      = (some ⟨[⟨"p1", 65, "MPH"⟩], []⟩, none) :=
  ⟨speedLimitsQuery_get_units r, by decide, by decide⟩

/-- C10: `Units` undergoes no membership validation — any non-empty string
value proceeds past validation (the worker is spawned) and is copied
verbatim into the `units` query parameter. -/
theorem c10_units_unvalidated (c : CallEnv) (race : RaceWinner) (ce : String)
    (r : SpeedLimitsRequest) (hu : r.Units ≠ "")
    (hv : r.Path ≠ [] ∨ r.PlaceID ≠ []) :
    (speedLimitsQuery r).get "units" = some [r.Units] ∧
    (SpeedLimits c race ce r).2.head? = some .spawnWorker := by
  refine ⟨?_, speedLimits_spawns_worker c race ce r hv⟩
  rw [speedLimitsQuery_get_units, if_neg hu]

/-- Witness for C10 with a units value outside MPH and KPH. -/
theorem c10_units_unvalidated_witness :
    (speedLimitsQuery ⟨[], ["p1"], "FURLONGS"⟩).get "units"
      = some ["FURLONGS"] ∧
    (SpeedLimits envBadBody .worker "canceled"
        ⟨[], ["p1"], "FURLONGS"⟩).2.head? = some .spawnWorker :=
  c10_units_unvalidated _ _ _ _ (by decide) (Or.inr (by decide))

/-- C7: when the auth-query collaborator fails, both operations return that
error verbatim with a nil response, and the trace contains the auth call
but no HTTP transport call, whichever branch of the select fires. -/
theorem c7_auth_error_propagated (c : CallEnv) (race : RaceWinner)
    (ce e : String) (r : SnapToRoadRequest) (r2 : SpeedLimitsRequest)
    (hn : c.newReqErr = none) (ha : c.auth = .error e) :
    doGetSnapToRoad c r = ((none, some e), [.authCall]) ∧
    doGetSpeedLimits c r2 = ((none, some e), [.authCall]) ∧
    (r.Path ≠ [] →
      SnapToRoad c .worker ce r = ((none, some e), [.spawnWorker, .authCall]) ∧
      (SnapToRoad c race ce r).2 = [.spawnWorker, .authCall]) ∧
    (r2.Path ≠ [] ∨ r2.PlaceID ≠ [] →
      SpeedLimits c .worker ce r2
        = ((none, some e), [.spawnWorker, .authCall]) ∧
      (SpeedLimits c race ce r2).2 = [.spawnWorker, .authCall]) := by
  have h1 : doGetSnapToRoad c r = ((none, some e), [.authCall]) := by
    simp [doGetSnapToRoad, hn, ha]
  have h2 : doGetSpeedLimits c r2 = ((none, some e), [.authCall]) := by
    simp [doGetSpeedLimits, hn, ha]
  refine ⟨h1, h2, ?_, ?_⟩
  · intro hp
    have hp0 : ¬ r.Path = [] := hp
    cases race <;>
      simp [SnapToRoad, List.length_eq_zero, hp0, h1]
  · intro hv
    have hv2 : ¬(r2.Path = [] ∧ r2.PlaceID = []) := by
      rcases hv with h | h <;> intro hc
      · exact h hc.1
      · exact h hc.2
    cases race <;>
      simp [SpeedLimits, List.length_eq_zero, hv2, h2]

/-- Witness for C7 at a concrete failing auth collaborator. -/
theorem c7_auth_error_propagated_witness :
    doGetSnapToRoad ⟨none, .error "sign fail", .ok none⟩ ⟨[⟨1, 2⟩], false⟩
      = ((none, some "sign fail"), [.authCall]) ∧
    SpeedLimits ⟨none, .error "sign fail", .ok none⟩ .worker "canceled"
        ⟨[], ["p1"], ""⟩
      = ((none, some "sign fail"), [.spawnWorker, .authCall]) := by
  have h := c7_auth_error_propagated ⟨none, .error "sign fail", .ok none⟩
    .worker "canceled" "sign fail" ⟨[⟨1, 2⟩], false⟩ ⟨[], ["p1"], ""⟩ rfl rfl
  exact ⟨h.1, (h.2.2.2 (Or.inr (by decide))).1⟩

/-- C9: in the embedding of the select race, if the cancellation signal
wins, both operations return a nil response with the context's error —
never a partial or successful result, whatever the in-flight worker
produces — and if the worker wins, the worker's pair is returned
unchanged: exactly one of the two outcomes is observed. -/
theorem c9_cancellation_race (c : CallEnv) (ce : String)
    (r : SnapToRoadRequest) (r2 : SpeedLimitsRequest)
    (h : r.Path ≠ []) (h2 : r2.Path ≠ [] ∨ r2.PlaceID ≠ []) :
    (SnapToRoad c .ctx ce r).1 = (none, some ce) ∧
    (SnapToRoad c .worker ce r).1 = (doGetSnapToRoad c r).1 ∧
    (SpeedLimits c .ctx ce r2).1 = (none, some ce) ∧
    (SpeedLimits c .worker ce r2).1 = (doGetSpeedLimits c r2).1 := by
  have hv2 : ¬(r2.Path = [] ∧ r2.PlaceID = []) := by
    rcases h2 with hx | hx <;> intro hc
    · exact hx hc.1
    · exact hx hc.2
  refine ⟨?_, ?_, ?_, ?_⟩ <;>
    simp [SnapToRoad, SpeedLimits, List.length_eq_zero, h, hv2]

/-- Witness for C9 at concrete requests and collaborators. -/
theorem c9_cancellation_race_witness :
    (SnapToRoad envBadBody .ctx "context deadline exceeded"
        ⟨[⟨1, 2⟩], false⟩).1 = (none, some "context deadline exceeded") ∧
    (SpeedLimits envBadBody .worker "canceled" ⟨[], ["p1"], ""⟩).1
      = (doGetSpeedLimits envBadBody ⟨[], ["p1"], ""⟩).1 := by
  have h := c9_cancellation_race envBadBody "context deadline exceeded"
    ⟨[⟨1, 2⟩], false⟩ ⟨[], ["p1"], ""⟩ (by decide) (Or.inr (by decide))
  have h2 := c9_cancellation_race envBadBody "canceled"
    ⟨[⟨1, 2⟩], false⟩ ⟨[], ["p1"], ""⟩ (by decide) (Or.inr (by decide))
  exact ⟨h.1, h2.2.2.2⟩

/-- C8: end-to-end, a body whose snapped point carries `originalIndex` zero
decodes to a present-and-zero `OriginalIndex`, a body without the key
decodes to an absent one, and the two outcomes are distinct values. -/
theorem c8_originalIndex_tristate :
    (SnapToRoad envIndexZero .worker "canceled" ⟨[⟨1, 2⟩], false⟩).1
      = (some ⟨[⟨⟨1, 2⟩, some 0, "p1"⟩]⟩, none) ∧
    (SnapToRoad envIndexAbsent .worker "canceled" ⟨[⟨1, 2⟩], false⟩).1
      = (some ⟨[⟨⟨1, 2⟩, none, "p1"⟩]⟩, none) ∧
    some (0 : Int) ≠ (none : Option Int) :=
  ⟨by decide, by decide, by decide⟩

/-- C1 as stated is refuted: with all collaborators succeeding but the
transport returning a malformed body, both operations return a decode
error together with a non-nil (zero-valued) response struct. -/
theorem c1_decode_error_counterexample :
    ((SnapToRoad envBadBody .worker "canceled" ⟨[⟨1, 2⟩], false⟩).1.2).isSome
        = true ∧
    ((SnapToRoad envBadBody .worker "canceled" ⟨[⟨1, 2⟩], false⟩).1.1).isSome
        = true ∧
    ((SpeedLimits envBadBody .worker "canceled" ⟨[], ["p1"], ""⟩).1.2).isSome
        = true ∧
    ((SpeedLimits envBadBody .worker "canceled" ⟨[], ["p1"], ""⟩).1.1).isSome
        = true := by
  decide

/-- C1 amended: a call with no error always carries a result, and the only
way a result and an error are returned together is that the worker won the
race, the transport delivered a body, and the pair is exactly the decode
step's struct and error — validation, request-creation, auth, transport
and cancellation errors all come with a nil response. -/
theorem c1_result_error_exclusivity (c : CallEnv) (race : RaceWinner)
    (ce : String) (r : SnapToRoadRequest) (r2 : SpeedLimitsRequest) :
    (((SnapToRoad c race ce r).1.2 = none →
        ((SnapToRoad c race ce r).1.1).isSome = true) ∧
     (((SnapToRoad c race ce r).1.1).isSome = true ∧
        ((SnapToRoad c race ce r).1.2).isSome = true →
        race = .worker ∧ c.newReqErr = none ∧ ∃ body, c.http = .ok body ∧
          (SnapToRoad c race ce r).1
            = (some (decodeSnapBody body).1, (decodeSnapBody body).2))) ∧
    (((SpeedLimits c race ce r2).1.2 = none →
        ((SpeedLimits c race ce r2).1.1).isSome = true) ∧
     (((SpeedLimits c race ce r2).1.1).isSome = true ∧
        ((SpeedLimits c race ce r2).1.2).isSome = true →
        race = .worker ∧ c.newReqErr = none ∧ ∃ body, c.http = .ok body ∧
          (SpeedLimits c race ce r2).1
            = (some (decodeSpeedBody body).1, (decodeSpeedBody body).2))) := by
  obtain ⟨nr, auth, http⟩ := c
  cases race <;> cases nr <;> cases auth <;> cases http <;>
    by_cases hp : r.Path = [] <;>
    by_cases hv : r2.Path = [] ∧ r2.PlaceID = [] <;>
    simp [SnapToRoad, SpeedLimits, doGetSnapToRoad, doGetSpeedLimits,
      List.length_eq_zero, hp, hv]

/-- Witness for C1 amended: the success direction at a concrete decodable
body, and the both-present direction at a concrete malformed body. -/
theorem c1_result_error_exclusivity_witness :
    ((SnapToRoad envIndexZero .worker "canceled" ⟨[⟨1, 2⟩], false⟩).1.1).isSome
        = true ∧
    (RaceWinner.worker = RaceWinner.worker ∧ envBadBody.newReqErr = none ∧
      ∃ body, envBadBody.http = .ok body ∧
        (SpeedLimits envBadBody .worker "canceled" ⟨[], ["p1"], ""⟩).1
          = (some (decodeSpeedBody body).1, (decodeSpeedBody body).2)) := by
  have h1 := c1_result_error_exclusivity envIndexZero .worker "canceled"
    ⟨[⟨1, 2⟩], false⟩ ⟨[], ["p1"], ""⟩
  have h2 := c1_result_error_exclusivity envBadBody .worker "canceled"
    ⟨[⟨1, 2⟩], false⟩ ⟨[], ["p1"], ""⟩
  exact ⟨h1.1.1 (by decide), h2.2.2 (by decide)⟩

end Maps
